import Mathlib

/-!
Shallow embedding of `src/main.rs` of the `wsd_to_ip` repository.

The program enumerates Windows printers via the two-phase `EnumPrintersW`
protocol (`get_all_printers`), filters the resulting records to those whose
port name starts with `"WSD"` (`get_wsd_printers`), and prints one block per
selected record (`main`).

Modelling conventions:
* `OsString` values produced by `OsString::from_wide` are modelled as lists of
  16-bit code units (`List Nat`).  `OsStr::to_str` is modelled by `decodeUtf16`,
  which succeeds exactly on well-formed UTF-16 (no lone surrogates) and yields
  the list of Unicode scalar values.
* The OS is an oracle `OsEnum` describing the observable behaviour of the two
  `EnumPrintersW` calls: the returned `BOOL`s, the `bytes_needed` values each
  call writes, the header records that reinterpreting the filled buffer as
  `PRINTER_INFO_2W` structs yields (their number is the `num_printers` count
  written by the second call), a word-addressed memory `mem` used to resolve
  the string pointers stored in the headers (`none` = unmapped address; the
  null pointer is address `0`), and the message `get_last_error()` would
  produce on a failure path.
* Log lines and OS calls become an explicit event trace (`Event`).  Faults
  (dereferencing an unmapped address, or a scan that never meets a terminator,
  whose length is bounded by a fuel parameter) make the printer list component
  of the result `none`; the Rust original has no value-level fault path, so
  `none` models the undefined behaviour / crash of such a dereference.
-/

inductive Severity where
  | info : Severity
  | warn : Severity
  | error : Severity
deriving DecidableEq, Repr

inductive Event where
  | call1 : Event
  | call2 : Event
  | decodeRecord : Nat → Event
  | log : Severity → String → Event
deriving DecidableEq, Repr

/-- `MinimalPrinterInfo` from `main.rs`: three `OsString` fields, each modelled
as a list of 16-bit code units. -/
structure MinimalPrinterInfo where
  printer_name : List Nat
  port_name : List Nat
  driver_name : List Nat
deriving DecidableEq, Repr

/-- Model of `OsStr::to_str`: UTF-16 decoding of the stored code units.
Returns the scalar values on success, `none` on a lone surrogate. -/
def decodeUtf16 : List Nat → Option (List Nat)
  | [] => some []
  | [c] =>
    if 0xD800 ≤ c ∧ c ≤ 0xDFFF then none
    else (decodeUtf16 []).map (fun s => c :: s)
  | c :: c2 :: rest =>
    if 0xD800 ≤ c ∧ c ≤ 0xDBFF then
      if 0xDC00 ≤ c2 ∧ c2 ≤ 0xDFFF then
        (decodeUtf16 rest).map
          (fun s => (0x10000 + (c - 0xD800) * 0x400 + (c2 - 0xDC00)) :: s)
      else none
    else if 0xDC00 ≤ c ∧ c ≤ 0xDFFF then none
    else (decodeUtf16 (c2 :: rest)).map (fun s => c :: s)

/-- The filter predicate of `get_wsd_printers`:
`printer.port_name.to_str().map_or(false, |s| s.starts_with("WSD"))`.
`"WSD"` is the scalar sequence `[87, 83, 68]`. -/
def port_starts_with_wsd (p : MinimalPrinterInfo) : Bool :=
  match decodeUtf16 p.port_name with
  | none => false
  | some s => List.isPrefixOf [87, 83, 68] s

/-- `get_wsd_printers` from `main.rs`, with its log lines as events. -/
def get_wsd_printers (all_printers : List MinimalPrinterInfo) :
    List MinimalPrinterInfo × List Event :=
  if all_printers.length = 0 then
    ([], [Event.log Severity.warn "[get_wsd_printers] Received empty set of printers"])
  else
    let wsd_printers := all_printers.filter port_starts_with_wsd
    (wsd_printers,
      [Event.log Severity.info
        ("[get_wsd_printers] Searching through " ++ toString all_printers.length
          ++ " printers"),
       Event.log Severity.info
        ("[get_wsd_printers] Successfully found " ++ toString wsd_printers.length
          ++ " WSD connected printers")])

/-- One `PRINTER_INFO_2W` header record, reduced to the three wide-string
pointers the program reads (addresses into the oracle memory; `0` = null). -/
structure RawHeader where
  pPrinterName : Nat
  pPortName : Nat
  pDriverName : Nat
deriving DecidableEq, Repr

/-- Oracle for the observable behaviour of the OS during one run of
`get_all_printers`. -/
structure OsEnum where
  /-- `BOOL` returned by the first `EnumPrintersW` call (`0` = failure). -/
  ret1 : Nat
  /-- `bytes_needed` as written by the first call. -/
  bytes1 : Nat
  /-- `BOOL` returned by the second `EnumPrintersW` call (`0` = failure). -/
  ret2 : Nat
  /-- `bytes_needed` as rewritten by the second call. -/
  bytes2 : Nat
  /-- The first `num_printers` header records obtained by reinterpreting the
  filled buffer as `PRINTER_INFO_2W` structs (so `headers.length` is the
  `num_printers` count written by the second call). -/
  headers : List RawHeader
  /-- Word-addressed readable memory (16-bit words); `none` = unmapped. -/
  mem : Nat → Option Nat
  /-- What `get_last_error()` yields on a failure path (`none` when the OS
  error code is `0`). -/
  lastError : Option String

/-- `wide_str_from_raw_ptr` from `main.rs`: scan forward from address `p`
until a zero word, collecting the words read.  Reading an unmapped address
faults (`none`); the fuel bounds the scan, exhaustion modelling the eventual
fault of an unterminated scan. -/
def wide_str_from_raw_ptr (mem : Nat → Option Nat) : Nat → Nat → Option (List Nat)
  | 0, _ => none
  | fuel + 1, p =>
    match mem p with
    | none => none
    | some 0 => some []
    | some w => (wide_str_from_raw_ptr mem fuel (p + 1)).map (fun s => w :: s)

/-- Resolution of one header record into a `MinimalPrinterInfo` (the loop body
of `get_all_printers`): all three pointers are dereferenced unconditionally. -/
def resolveHeader (mem : Nat → Option Nat) (fuel : Nat) (h : RawHeader) :
    Option MinimalPrinterInfo :=
  match wide_str_from_raw_ptr mem fuel h.pPrinterName,
        wide_str_from_raw_ptr mem fuel h.pPortName,
        wide_str_from_raw_ptr mem fuel h.pDriverName with
  | some a, some b, some c => some ⟨a, b, c⟩
  | _, _, _ => none

/-- The record-extraction loop of `get_all_printers`, with one
`Event.decodeRecord i` per header record processed.  A fault while resolving
a record aborts the run (`none`). -/
def decodeLoop (mem : Nat → Option Nat) (fuel : Nat) :
    List RawHeader → Nat → Option (List MinimalPrinterInfo) × List Event
  | [], _ => (some [], [])
  | h :: rest, i =>
    match resolveHeader mem fuel h with
    | none => (none, [Event.decodeRecord i])
    | some r =>
      let d := decodeLoop mem fuel rest (i + 1)
      (d.1.map (fun l => r :: l), Event.decodeRecord i :: d.2)

/-- The log line produced by `get_last_error()` on a failure path of
`get_all_printers` (nothing is logged when the OS error code is `0`). -/
def gapLastErrLog (os : OsEnum) : List Event :=
  match os.lastError with
  | some e =>
    [Event.log Severity.error
      ("[get_all_printers] EnumPrintersW failed with error code: " ++ e)]
  | none => []

/-- Trace up to and including the first `EnumPrintersW` call. -/
def gapPre1 : List Event :=
  [Event.log Severity.info
    "[get_all_printers] First call to EnumPrintersW to determine bytes_needed",
   Event.call1]

/-- Trace up to and including the second `EnumPrintersW` call. -/
def gapPre2 (os : OsEnum) : List Event :=
  gapPre1 ++
    [Event.log Severity.info
      ("[get_all_printers] Bytes needed: " ++ toString os.bytes1),
     Event.log Severity.info
      "[get_all_printers] Second call to EnumPrintersW to populate buffer with PRINTER_INFO_2W structs",
     Event.call2]

/-- Trace up to the point where the filled buffer is viewed as
`PRINTER_INFO_2W` structs. -/
def gapPre3 (os : OsEnum) : List Event :=
  gapPre2 os ++
    [Event.log Severity.info "[get_all_printers] Successfully filled buffer at",
     Event.log Severity.info
      "[get_all_printers] Converting raw byte buffer to slice of PRINTER_INFO_2W structs"]

/-- `get_all_printers` from `main.rs`, over the OS oracle.  First component:
the returned `Vec<MinimalPrinterInfo>` (`none` = the run faulted).  Second
component: the trace of OS calls and log lines, in program order. -/
def get_all_printers (os : OsEnum) (fuel : Nat) :
    Option (List MinimalPrinterInfo) × List Event :=
  if os.ret1 = 0 ∧ os.bytes1 = 0 then
    (some [],
      gapPre1 ++
        Event.log Severity.error
          "[get_all_printers] EnumPrintersW failed to set bytes_needed" ::
        gapLastErrLog os)
  else
    if os.ret2 = 0 ∨ os.bytes2 = 0 then
      (some [],
        gapPre2 os ++
          Event.log Severity.error
            "[get_all_printers] EnumPrintersW failed to populate buffer with PRINTER_INFO_2W structs" ::
          gapLastErrLog os)
    else
      if os.headers.isEmpty then
        (some [],
          gapPre3 os ++ [Event.log Severity.warn "[get_all_printers] No printers found"])
      else
        let d := decodeLoop os.mem fuel os.headers 0
        (d.1,
          gapPre3 os ++
            Event.log Severity.info
              "[get_all_printers] Successfully created &[PRINTER_INFO_2W] slice" ::
            d.2)

/-- One multi-line block printed to standard output by `main`'s final loop. -/
inductive OutBlock where
  | block : List Nat → List Nat → List Nat → OutBlock
deriving DecidableEq, Repr

/-- The part of `main` that runs after `get_all_printers` has returned `all`:
the emptiness checks, the call to `get_wsd_printers`, and the report loop.
First component: the blocks printed to standard output, in order. -/
def mainReport (all : List MinimalPrinterInfo) : List OutBlock × List Event :=
  if all.isEmpty then
    ([], [Event.log Severity.warn "[main] No printers found"])
  else
    let g := get_wsd_printers all
    let pre := Event.log Severity.info "[main] Successfully retrieved printer information" :: g.2
    if g.1.length = 0 then
      ([], pre ++ [Event.log Severity.warn "[main] No WSD connected printers found"])
    else
      (g.1.map (fun p => OutBlock.block p.printer_name p.port_name p.driver_name), pre)

/-- The body of `main` after the logger has been initialised. -/
def mainRun (os : OsEnum) (fuel : Nat) : Option (List OutBlock) × List Event :=
  let start : List Event :=
    [Event.log Severity.info
      "[main] Getting information from all locally connected printers"]
  let e := get_all_printers os fuel
  match e.1 with
  | none => (none, start ++ e.2)
  | some all =>
    let r := mainReport all
    (some r.1, start ++ e.2 ++ r.2)

/-- The whole process: `File::create("wsd_to_ip.log").expect("Could not create
log file")` runs before anything else; if creation fails, the process panics
with that message before any enumeration, filtering or printing. -/
def mainProc (fileCreated : Bool) (os : OsEnum) (fuel : Nat) :
    Except String (Option (List OutBlock) × List Event) :=
  if fileCreated then Except.ok (mainRun os fuel)
  else Except.error "Could not create log file"

/-! ### Concrete oracles used in witnesses and counterexamples -/

/-- Memory holding the null-terminated wide strings `"WSD"` at address 10,
`"A"` at address 20 and `"D"` at address 30; everything else is unmapped. -/
def memA : Nat → Option Nat := fun a =>
  if a = 10 then some 87 else if a = 11 then some 83
  else if a = 12 then some 68 else if a = 13 then some 0
  else if a = 20 then some 65 else if a = 21 then some 0
  else if a = 30 then some 68 else if a = 31 then some 0
  else none

/-- A healthy run: both calls succeed, one printer whose port is `"WSD"`. -/
def osA : OsEnum := ⟨1, 64, 1, 64, [⟨20, 10, 30⟩], memA, none⟩

/-- First call fails with `bytes_needed` left at `0`. -/
def osF1 : OsEnum := ⟨0, 0, 1, 64, [], memA, some "Access is denied."⟩

/-- First call succeeds, second call reports failure. -/
def osF2 : OsEnum := ⟨1, 64, 0, 64, [⟨20, 10, 30⟩], memA, some "Access is denied."⟩

/-- Both calls succeed but the printer count is zero. -/
def osE : OsEnum := ⟨1, 64, 1, 64, [], memA, none⟩

/-- Memory holding `"A"` at address 10 and `"W"` at address 20; address `0`
(the null pointer) is unmapped. -/
def memN : Nat → Option Nat := fun a =>
  if a = 10 then some 65 else if a = 11 then some 0
  else if a = 20 then some 87 else if a = 21 then some 0
  else none

/-- Both calls succeed; the single header record carries a null
`pDriverName` pointer. -/
def osN : OsEnum := ⟨1, 64, 1, 64, [⟨10, 20, 0⟩], memN, none⟩

/-- Both calls succeed; the first header's `pDriverName` points at a zero
word (address 11), the second record is fully resolvable. -/
def osW : OsEnum := ⟨1, 64, 1, 64, [⟨10, 20, 11⟩, ⟨10, 20, 21⟩], memN, none⟩

/-! ### Helper lemmas -/

lemma get_wsd_fst (x : List MinimalPrinterInfo) :
    (get_wsd_printers x).1 = x.filter port_starts_with_wsd := by
  cases x with
  | nil => simp [get_wsd_printers]
  | cons a t => simp [get_wsd_printers]

lemma decodeLoop_fst_some (mem : Nat → Option Nat) (fuel : Nat) :
    ∀ (hs : List RawHeader) (i : Nat),
      (∀ h ∈ hs, (resolveHeader mem fuel h).isSome = true) →
      ∃ l, (decodeLoop mem fuel hs i).1 = some l ∧ l.length = hs.length := by
  intro hs
  induction hs with
  | nil => exact fun i _ => ⟨[], rfl, rfl⟩
  | cons h t ih =>
    intro i hres
    have h1 : (resolveHeader mem fuel h).isSome = true := hres h (by simp)
    obtain ⟨r, hr⟩ := Option.isSome_iff_exists.mp h1
    obtain ⟨l, hl, hlen⟩ := ih (i + 1) (fun h2 hh2 => hres h2 (by simp [hh2]))
    exact ⟨r :: l, by simp [decodeLoop, hr, hl], by simp [hlen]⟩

lemma wide_str_zero (mem : Nat → Option Nat) (fuel p : Nat) (h0 : 0 < fuel)
    (hm : mem p = some 0) : wide_str_from_raw_ptr mem fuel p = some [] := by
  cases fuel with
  | zero => omega
  | succ k => simp [wide_str_from_raw_ptr, hm]

lemma get_all_printers_fail1 (os : OsEnum) (fuel : Nat)
    (h : os.ret1 = 0 ∧ os.bytes1 = 0) :
    get_all_printers os fuel =
      (some [],
        gapPre1 ++
          Event.log Severity.error
            "[get_all_printers] EnumPrintersW failed to set bytes_needed" ::
          gapLastErrLog os) := by
  simp only [get_all_printers, if_pos h]

lemma get_all_printers_fail2 (os : OsEnum) (fuel : Nat)
    (h1 : ¬(os.ret1 = 0 ∧ os.bytes1 = 0)) (h2 : os.ret2 = 0 ∨ os.bytes2 = 0) :
    get_all_printers os fuel =
      (some [],
        gapPre2 os ++
          Event.log Severity.error
            "[get_all_printers] EnumPrintersW failed to populate buffer with PRINTER_INFO_2W structs" ::
          gapLastErrLog os) := by
  simp only [get_all_printers, if_neg h1, if_pos h2]

lemma get_all_printers_nofail (os : OsEnum) (fuel : Nat)
    (h1 : ¬(os.ret1 = 0 ∧ os.bytes1 = 0)) (h2 : ¬(os.ret2 = 0 ∨ os.bytes2 = 0))
    (h3 : os.headers = []) :
    get_all_printers os fuel =
      (some [],
        gapPre3 os ++ [Event.log Severity.warn "[get_all_printers] No printers found"]) := by
  simp only [get_all_printers, if_neg h1, if_neg h2, h3, List.isEmpty_nil, if_pos]

lemma get_all_printers_decode (os : OsEnum) (fuel : Nat)
    (h1 : ¬(os.ret1 = 0 ∧ os.bytes1 = 0)) (h2 : ¬(os.ret2 = 0 ∨ os.bytes2 = 0))
    (h3 : os.headers ≠ []) :
    get_all_printers os fuel =
      ((decodeLoop os.mem fuel os.headers 0).1,
        gapPre3 os ++
          Event.log Severity.info
            "[get_all_printers] Successfully created &[PRINTER_INFO_2W] slice" ::
          (decodeLoop os.mem fuel os.headers 0).2) := by
  have h3' : os.headers.isEmpty = false := by
    cases hh : os.headers with
    | nil => exact absurd hh h3
    | cons a t => simp
  simp only [get_all_printers, if_neg h1, if_neg h2, h3', Bool.false_eq_true, if_neg,
    not_false_eq_true]

lemma filter_wsd_idem (l : List MinimalPrinterInfo) :
    (l.filter port_starts_with_wsd).filter port_starts_with_wsd
      = l.filter port_starts_with_wsd :=
  List.filter_eq_self.mpr fun _ ha => List.of_mem_filter ha

/-! ### Claim theorems -/

/-- C1: `get_wsd_printers` is a stable filter: its output is the input
filtered (in input order) by the predicate "port_name decodes as text and
starts with the literal prefix `\x7bWSD\x7d`-free literal `WSD`", hence a
subsequence of the input; a record whose port name fails to decode is
excluded (the predicate is `false` on it), not an error. -/
theorem wsd_filter_stable :
    ∀ x : List MinimalPrinterInfo,
      (get_wsd_printers x).1 = x.filter port_starts_with_wsd ∧
      List.Sublist (get_wsd_printers x).1 x ∧
      (∀ r : MinimalPrinterInfo, decodeUtf16 r.port_name = none →
        port_starts_with_wsd r = false) := by
  intro x
  refine ⟨get_wsd_fst x, ?_, ?_⟩
  · rw [get_wsd_fst x]
    exact List.filter_sublist x
  · intro r hr
    simp [port_starts_with_wsd, hr]

theorem wsd_filter_stable_witness :
    port_starts_with_wsd ⟨[67], [0xD800], [68]⟩ = false :=
  (wsd_filter_stable []).2.2 ⟨[67], [0xD800], [68]⟩ (by decide)

/-- C7: `get_wsd_printers` is idempotent on the returned printer list. -/
theorem wsd_filter_idempotent :
    ∀ x : List MinimalPrinterInfo,
      (get_wsd_printers (get_wsd_printers x).1).1 = (get_wsd_printers x).1 := by
  intro x
  rw [get_wsd_fst x, get_wsd_fst (x.filter port_starts_with_wsd)]
  exact filter_wsd_idem x

/-- C8: on the empty input `get_wsd_printers` returns the empty list and logs
a warning notice; that notice differs from the "no matches found" notice the
downstream `main` logs when the filter output is empty. -/
theorem wsd_filter_empty_notice :
    get_wsd_printers [] =
      ([], [Event.log Severity.warn "[get_wsd_printers] Received empty set of printers"]) ∧
    Event.log Severity.warn "[main] No WSD connected printers found"
      ∈ (mainReport [⟨[66], [76, 80, 84, 49], [68]⟩]).2 ∧
    Event.log Severity.warn "[get_wsd_printers] Received empty set of printers" ≠
      Event.log Severity.warn "[main] No WSD connected printers found" := by
  refine ⟨rfl, by decide, by decide⟩

/-- C9: for every list the enumerator returns, `main` prints exactly one
block (printer name, port name, driver name) per record whose port starts
with `WSD`, in order, and nothing for the others; in particular for two
printers with ports `WSD-abc` and `LPT1`, exactly the one block for the WSD
printer is printed. -/
theorem main_report_blocks :
    (∀ all : List MinimalPrinterInfo,
      (mainReport all).1 =
        (all.filter port_starts_with_wsd).map
          (fun p => OutBlock.block p.printer_name p.port_name p.driver_name)) ∧
    (mainReport
        [⟨[65], [87, 83, 68, 45, 97, 98, 99], [68]⟩,
         ⟨[66], [76, 80, 84, 49], [68]⟩]).1 =
      [OutBlock.block [65] [87, 83, 68, 45, 97, 98, 99] [68]] := by
  have hmain : ∀ all : List MinimalPrinterInfo,
      (mainReport all).1 =
        (all.filter port_starts_with_wsd).map
          (fun p => OutBlock.block p.printer_name p.port_name p.driver_name) := by
    intro all
    cases all with
    | nil => simp [mainReport]
    | cons a t =>
      by_cases hf : (a :: t).filter port_starts_with_wsd = []
      · simp [mainReport, get_wsd_fst (a :: t), hf]
      · simp [mainReport, get_wsd_fst (a :: t), hf]
  refine ⟨hmain, ?_⟩
  rw [hmain]
  decide

/-- C10: if the log file cannot be created, the process panics with
`Could not create log file` before any enumeration, filtering or reporting
(the result carries no trace and no output); it proceeds past startup if and
only if the log file was created. -/
theorem log_file_panic_gate :
    ∀ (fc : Bool) (os : OsEnum) (fuel : Nat),
      (mainProc false os fuel = Except.error "Could not create log file") ∧
      ((∃ r, mainProc fc os fuel = Except.ok r) ↔ fc = true) := by
  intro fc os fuel
  constructor
  · rfl
  · cases fc with
    | false => simp [mainProc]
    | true => exact ⟨fun _ => rfl, fun _ => ⟨mainRun os fuel, rfl⟩⟩

/-- C2: for every behaviour of the OS enumeration primitive — success or
failure of either call, any reported sizes/counts — `get_all_printers`
returns a list (empty on every failure path) and never propagates a failure,
provided the string pointers in the OS-written headers are resolvable (the
buffer layout the OS contract guarantees). -/
theorem enumerate_never_fails :
    ∀ (os : OsEnum) (fuel : Nat),
      (∀ h ∈ os.headers, (resolveHeader os.mem fuel h).isSome = true) →
      ∃ l, (get_all_printers os fuel).1 = some l := by
  intro os fuel hres
  by_cases h1 : os.ret1 = 0 ∧ os.bytes1 = 0
  · exact ⟨[], by rw [get_all_printers_fail1 os fuel h1]⟩
  · by_cases h2 : os.ret2 = 0 ∨ os.bytes2 = 0
    · exact ⟨[], by rw [get_all_printers_fail2 os fuel h1 h2]⟩
    · by_cases h3 : os.headers = []
      · exact ⟨[], by rw [get_all_printers_nofail os fuel h1 h2 h3]⟩
      · obtain ⟨l, hl, -⟩ := decodeLoop_fst_some os.mem fuel os.headers 0 hres
        exact ⟨l, by rw [get_all_printers_decode os fuel h1 h2 h3]; exact hl⟩

theorem enumerate_never_fails_witness :
    ∃ l, (get_all_printers osA 5).1 = some l :=
  enumerate_never_fails osA 5 (by decide)

/-- C3: when the first `EnumPrintersW` call reports failure and leaves
`bytes_needed` at `0`, `get_all_printers` logs the failure (with the OS
last-error message when obtainable) and returns the empty list without making
the second call; conversely, whenever that conjunction fails, the second call
is made. -/
theorem first_call_hard_failure :
    ∀ (os : OsEnum) (fuel : Nat),
      (os.ret1 = 0 ∧ os.bytes1 = 0 →
        (get_all_printers os fuel).1 = some [] ∧
        Event.call2 ∉ (get_all_printers os fuel).2 ∧
        Event.log Severity.error
          "[get_all_printers] EnumPrintersW failed to set bytes_needed"
            ∈ (get_all_printers os fuel).2 ∧
        (∀ e, os.lastError = some e →
          Event.log Severity.error
            ("[get_all_printers] EnumPrintersW failed with error code: " ++ e)
              ∈ (get_all_printers os fuel).2)) ∧
      (¬(os.ret1 = 0 ∧ os.bytes1 = 0) →
        Event.call2 ∈ (get_all_printers os fuel).2) := by
  intro os fuel
  constructor
  · intro h
    rw [get_all_printers_fail1 os fuel h]
    refine ⟨rfl, ?_, by simp [gapPre1], ?_⟩
    · cases he : os.lastError <;> simp [gapPre1, gapLastErrLog, he]
    · intro e he
      simp [gapPre1, gapLastErrLog, he]
  · intro h1
    by_cases h2 : os.ret2 = 0 ∨ os.bytes2 = 0
    · rw [get_all_printers_fail2 os fuel h1 h2]
      simp [gapPre2, gapPre1]
    · by_cases h3 : os.headers = []
      · rw [get_all_printers_nofail os fuel h1 h2 h3]
        simp [gapPre3, gapPre2, gapPre1]
      · rw [get_all_printers_decode os fuel h1 h2 h3]
        simp [gapPre3, gapPre2, gapPre1]

theorem first_call_hard_failure_witness :
    (get_all_printers osF1 5).1 = some [] ∧
    Event.call2 ∉ (get_all_printers osF1 5).2 ∧
    Event.call2 ∈ (get_all_printers osA 5).2 :=
  ⟨((first_call_hard_failure osF1 5).1 ⟨rfl, rfl⟩).1,
   ((first_call_hard_failure osF1 5).1 ⟨rfl, rfl⟩).2.1,
   (first_call_hard_failure osA 5).2 (by decide)⟩

/-- C4: when the second `EnumPrintersW` call reports failure or leaves
`bytes_needed` at `0` (either condition alone), `get_all_printers` logs the
failure (with the OS last-error message when obtainable) and returns the
empty list without decoding any record from the buffer. -/
theorem second_call_hard_failure :
    ∀ (os : OsEnum) (fuel : Nat),
      ¬(os.ret1 = 0 ∧ os.bytes1 = 0) →
      (os.ret2 = 0 ∨ os.bytes2 = 0) →
      (get_all_printers os fuel).1 = some [] ∧
      Event.log Severity.error
        "[get_all_printers] EnumPrintersW failed to populate buffer with PRINTER_INFO_2W structs"
          ∈ (get_all_printers os fuel).2 ∧
      (∀ e, os.lastError = some e →
        Event.log Severity.error
          ("[get_all_printers] EnumPrintersW failed with error code: " ++ e)
            ∈ (get_all_printers os fuel).2) ∧
      (∀ i, Event.decodeRecord i ∉ (get_all_printers os fuel).2) := by
  intro os fuel h1 h2
  rw [get_all_printers_fail2 os fuel h1 h2]
  refine ⟨rfl, by simp [gapPre2, gapPre1], ?_, ?_⟩
  · intro e he
    simp [gapPre2, gapPre1, gapLastErrLog, he]
  · intro i
    cases he : os.lastError <;> simp [gapPre2, gapPre1, gapLastErrLog, he]

theorem second_call_hard_failure_witness :
    (get_all_printers osF2 5).1 = some [] ∧
    Event.decodeRecord 0 ∉ (get_all_printers osF2 5).2 :=
  ⟨(second_call_hard_failure osF2 5 (by decide) (by decide)).1,
   (second_call_hard_failure osF2 5 (by decide) (by decide)).2.2.2 0⟩

/-- C5: when the second `EnumPrintersW` call succeeds (and rewrites a nonzero
`bytes_needed`) but the reported printer count is zero — i.e. the typed view
of the buffer has no records — `get_all_printers` logs a warning and returns
the empty list without reading or decoding any header record from the
buffer. -/
theorem zero_count_no_reinterpret :
    ∀ (os : OsEnum) (fuel : Nat),
      ¬(os.ret1 = 0 ∧ os.bytes1 = 0) →
      ¬(os.ret2 = 0 ∨ os.bytes2 = 0) →
      os.headers = [] →
      (get_all_printers os fuel).1 = some [] ∧
      Event.log Severity.warn "[get_all_printers] No printers found"
        ∈ (get_all_printers os fuel).2 ∧
      (∀ i, Event.decodeRecord i ∉ (get_all_printers os fuel).2) := by
  intro os fuel h1 h2 h3
  rw [get_all_printers_nofail os fuel h1 h2 h3]
  refine ⟨rfl, by simp, ?_⟩
  intro i
  simp [gapPre3, gapPre2, gapPre1]

theorem zero_count_no_reinterpret_witness :
    (get_all_printers osE 5).1 = some [] ∧
    Event.decodeRecord 0 ∉ (get_all_printers osE 5).2 :=
  ⟨(zero_count_no_reinterpret osE 5 (by decide) (by decide) rfl).1,
   (zero_count_no_reinterpret osE 5 (by decide) (by decide) rfl).2.2 0⟩

/-- C6 counterexample: a record whose `pDriverName` is the null pointer is
*not* turned into a record with an empty `driver_name`; the scan dereferences
the null pointer unconditionally (`while *ptr.add(length) != 0` in
`wide_str_from_raw_ptr`) and the run faults (`none`), instead of producing
the record `⟨"A", "W", ""⟩` the claim predicts. -/
theorem null_driver_ptr_cex :
    (get_all_printers osN 5).1 = none ∧
    (get_all_printers osN 5).1 ≠ some [⟨[65], [87], []⟩] := by
  constructor <;> decide

/-- C6 amended: a string-field pointer is dereferenced unconditionally (the
code trusts the OS); a pointer at which readable memory holds an immediate
zero word — e.g. a pointer to an empty string — yields the empty string for
that field, and enumeration of that record and all remaining records
continues. -/
theorem zero_word_driver_fallback :
    ∀ (os : OsEnum) (fuel : Nat) (h : RawHeader) (t : List RawHeader)
      (pn po : List Nat),
      ¬(os.ret1 = 0 ∧ os.bytes1 = 0) →
      ¬(os.ret2 = 0 ∨ os.bytes2 = 0) →
      os.headers = h :: t →
      wide_str_from_raw_ptr os.mem fuel h.pPrinterName = some pn →
      wide_str_from_raw_ptr os.mem fuel h.pPortName = some po →
      os.mem h.pDriverName = some 0 →
      0 < fuel →
      (∀ h2 ∈ t, (resolveHeader os.mem fuel h2).isSome = true) →
      ∃ l, (get_all_printers os fuel).1 = some (⟨pn, po, []⟩ :: l) ∧
        l.length = t.length := by
  intro os fuel h t pn po h1 h2 h3 hpn hpo hdrv hfuel hres
  have hdrv0 : wide_str_from_raw_ptr os.mem fuel h.pDriverName = some [] :=
    wide_str_zero os.mem fuel h.pDriverName hfuel hdrv
  have hhead : resolveHeader os.mem fuel h = some ⟨pn, po, []⟩ := by
    simp [resolveHeader, hpn, hpo, hdrv0]
  obtain ⟨l, hl, hlen⟩ := decodeLoop_fst_some os.mem fuel t 1 hres
  have hne : os.headers ≠ [] := by rw [h3]; exact List.cons_ne_nil h t
  refine ⟨l, ?_, hlen⟩
  rw [get_all_printers_decode os fuel h1 h2 hne, h3]
  simp [decodeLoop, hhead, hl]

theorem zero_word_driver_fallback_witness :
    ∃ l, (get_all_printers osW 5).1 = some (⟨[65], [87], []⟩ :: l) ∧
      l.length = 1 :=
  zero_word_driver_fallback osW 5 ⟨10, 20, 11⟩ [⟨10, 20, 21⟩] [65] [87]
    (by decide) (by decide) rfl (by decide) (by decide) (by decide) (by decide)
    (by decide)
